import Mathlib

/-!
Shallow embedding of the package-inventory logic of
iced-ubuntu-package-manager (src/main.rs): the three source parsers
(APT, Flatpak, Snap), the aggregator, the filter predicate and the
UI state-update function, together with proofs of the specified
properties.

Rust string primitives are modelled structurally over the character
list of a String, so that every definition evaluates by kernel
reduction on concrete inputs.
-/

namespace PkgMgr

/-- Boolean test that the list nee occurs as a contiguous segment of the
second list; model of Rust str::contains on characters. -/
def listInfixB (nee : List Char) : List Char → Bool
  | [] => nee.isEmpty
  | c :: t => nee.isPrefixOf (c :: t) || listInfixB nee t

/-- Split a character list at every character satisfying p, keeping empty
segments; model of Rust str::split. -/
def splitBy (p : Char → Bool) : List Char → List (List Char)
  | [] => [[]]
  | c :: t =>
    match splitBy p t with
    | [] => [[]]
    | h :: r => if p c then [] :: h :: r else (c :: h) :: r

/-- Model of Rust str::is_empty. -/
def strIsEmpty (s : String) : Bool := s.data.isEmpty

/-- Model of Rust str::contains (plain substring containment). -/
def strContains (hay nee : String) : Bool := listInfixB nee.data hay.data

/-- Model of Rust str::starts_with. -/
def strStarts (s pre : String) : Bool := pre.data.isPrefixOf s.data

/-- Model of Rust str::ends_with. -/
def strEnds (s suf : String) : Bool := suf.data.isSuffixOf s.data

/-- Model of Rust str::to_lowercase (simple per-character case folding). -/
def strLower (s : String) : String := ⟨s.data.map Char.toLower⟩

/-- Model of Rust str::trim: drop whitespace from both ends. -/
def strTrim (s : String) : String :=
  ⟨((s.data.dropWhile Char.isWhitespace).reverse.dropWhile Char.isWhitespace).reverse⟩

/-- Model of Rust str::split on a single separator character. -/
def strSplitCh (c : Char) (s : String) : List String :=
  (splitBy (fun a => a == c) s.data).map String.mk

/-- Model of Rust str::split_whitespace: split on whitespace and drop the
empty segments. -/
def splitWhite (s : String) : List String :=
  ((splitBy Char.isWhitespace s.data).map String.mk).filter (fun t => !strIsEmpty t)

/-- Model of Rust str::lines: split on the newline character, drop a final
empty segment, and strip one trailing carriage return from each line. -/
def rustLines (s : String) : List String :=
  let parts := splitBy (fun c => c == '\n') s.data
  let parts := if parts.getLast? == some [] then parts.dropLast else parts
  parts.map (fun l => String.mk (if l.getLast? == some '\r' then l.dropLast else l))

/-- Origin package manager of a record (enum Source in main.rs). -/
inductive Source
  | Flatpak
  | Apt
  | Snap
deriving DecidableEq

/-- Display string of a Source (the Display impl in main.rs). -/
def Source.display : Source → String
  | .Flatpak => "Flatpak"
  | .Apt => "APT"
  | .Snap => "Snap"

/-- One installed unit (struct Package in main.rs). -/
structure Package where
  source : Source
  name : String
  version : String
  is_system : Bool
deriving DecidableEq

/-- Visibility predicate (fn filter_package in main.rs), mirroring the
accumulated boolean of the source. -/
def filter_package (pkg : Package) (name source : String) (include_system : Bool) : Bool :=
  let s1 : Bool :=
    if strIsEmpty name then true && true
    else true && strContains (strLower pkg.name) (strLower name)
  let s2 : Bool :=
    if strIsEmpty source then s1 && true
    else s1 && strContains (strLower pkg.source.display) (strLower source)
  s2 && (pkg.is_system == false || (pkg.is_system == true && include_system))

/-- C2: filter_package pkg n s b holds iff the name filter is empty or
matches as a lowercased substring, the source filter is empty or matches
the lowercased display string, and the package is not system or the
include-system flag is set. -/
theorem filter_package_iff (pkg : Package) (n s : String) (b : Bool) :
    filter_package pkg n s b = true ↔
      (strIsEmpty n = true ∨ strContains (strLower pkg.name) (strLower n) = true) ∧
      (strIsEmpty s = true ∨ strContains (strLower pkg.source.display) (strLower s) = true) ∧
      (pkg.is_system = false ∨ b = true) := by
  unfold filter_package
  cases hn : strIsEmpty n <;> cases hs : strIsEmpty s <;>
    cases hsys : pkg.is_system <;> cases b <;> simp [hn, hs, hsys]

/-- Manual-install set (fn load_manual_set in main.rs), as a function of the
captured stdout of apt-mark showmanual: trimmed non-empty lines. -/
def load_manual_set (out : String) : List String :=
  ((rustLines out).map strTrim).filter (fun s => !strIsEmpty s)

/-- Meta/runtime name pattern of the APT classifier (the is_meta local of
fn load_apt in main.rs). -/
def aptMeta (name : String) : Bool :=
  strStarts name "linux-" || strStarts name "language-pack-" ||
    strEnds name "-data" || strEnds name "-common"

/-- Loop body of fn load_apt in main.rs for one dpkg-query output line:
split on tab, trim the first two fields, drop the line when the name is
empty, otherwise emit one classified Package. -/
def parseAptLine (manual : List String) (line : String) : Option Package :=
  let parts := strSplitCh '\t' line
  let name := strTrim ((parts.get? 0).getD "")
  let version := strTrim ((parts.get? 1).getD "")
  if strIsEmpty name then none
  else some
    { source := Source.Apt
      name := name
      version := version
      is_system := !(manual.contains name && !strStarts name "lib" && !aptMeta name) }

/-- Parsing part of fn load_apt in main.rs, as a function of the stdout of
apt-mark showmanual and of dpkg-query. -/
def load_apt (manualOut dpkgOut : String) : List Package :=
  (rustLines dpkgOut).filterMap (parseAptLine (load_manual_set manualOut))

/-- Loop body of fn load_flatpak in main.rs for one output line: the first
two whitespace columns give name and version; empty lines and lines with an
empty name are dropped; is_system is always false. -/
def parseFlatpakLine (line : String) : Option Package :=
  let cols := splitWhite line
  if cols.isEmpty then none
  else
    let name := strTrim ((cols.get? 0).getD "")
    let version := strTrim ((cols.get? 1).getD "")
    if strIsEmpty name then none
    else some
      { source := Source.Flatpak
        name := name
        version := version
        is_system := false }

/-- Parsing part of fn load_flatpak in main.rs, as a function of the stdout
of the flatpak list command. -/
def load_flatpak (out : String) : List Package :=
  (rustLines out).filterMap parseFlatpakLine

/-- Snap runtime classifier (fn is_snap_runtime in main.rs). -/
def is_snap_runtime (name notes : String) : Bool :=
  if strContains notes "base" || strContains notes "kernel" || strContains notes "gadget" then
    true
  else
    strStarts name "core" || strStarts name "gnome-" ||
      strStarts name "gtk-" || strStarts name "mesa-"

/-- Loop body of fn load_snap in main.rs for one non-header line: lines with
fewer than two whitespace columns are dropped; otherwise name and version are
the first two columns and the notes column is the last one. -/
def parseSnapLine (line : String) : Option Package :=
  let cols := splitWhite line
  if cols.length < 2 then none
  else some
    { source := Source.Snap
      name := (cols.get? 0).getD ""
      version := (cols.get? 1).getD ""
      is_system := is_snap_runtime ((cols.get? 0).getD "") (cols.getLast?.getD "") }

/-- Parsing part of fn load_snap in main.rs, as a function of the stdout of
snap list: the enumerated loop skips index 0 (the header line). -/
def load_snap (out : String) : List Package :=
  (rustLines out).enum.filterMap (fun il => if il.1 == 0 then none else parseSnapLine il.2)

/-- Three per-source package lists (struct PackageLists in main.rs). -/
structure PackageLists where
  flatpak_packages : List Package
  apt_packages : List Package
  snap_packages : List Package
deriving DecidableEq

/-- Model of Vec::join on newline, used by the aggregator on its error list. -/
def joinNl : List String → String
  | [] => ""
  | [a] => a
  | a :: b :: r => a ++ "\n" ++ joinNl (b :: r)

/-- Aggregation logic of async fn load_app_lists in main.rs, as a function of
the three per-source results: each failing source appends one labeled error
string (APT, then Flatpak, then Snap); if no error was collected the three
lists are returned, otherwise the newline-joined error string. -/
def load_app_lists (aptRes flatpakRes snapRes : Except String (List Package)) :
    Except String PackageLists :=
  let st1 : List Package × List String :=
    match aptRes with
    | .ok apps => (apps, [])
    | .error e => ([], ["APT error: " ++ e])
  let st2 : List Package × List String :=
    match flatpakRes with
    | .ok apps => (apps, st1.2)
    | .error e => ([], st1.2 ++ ["Flatpak error: " ++ e])
  let st3 : List Package × List String :=
    match snapRes with
    | .ok apps => (apps, st2.2)
    | .error e => ([], st2.2 ++ ["Snap error: " ++ e])
  if st3.2.isEmpty then
    Except.ok
      { flatpak_packages := st2.1
        apt_packages := st1.1
        snap_packages := st3.1 }
  else
    Except.error (joinNl st3.2)

/-- Navigation pages (enum Page in main.rs). -/
inductive Page
  | Apt
  | Flatpak
  | Snap
  | All
deriving DecidableEq

/-- UI messages (enum Message in main.rs); AppsLoaded carries the load
result. -/
inductive Message
  | AppsLoaded (r : Except String PackageLists)
  | Navigate (p : Page)
  | NameSearchChange (t : String)
  | SourceSearchChange (t : String)
  | IncludeSystemChange (b : Bool)

/-- Application state (struct AppState in main.rs). -/
structure AppState where
  flatpak_packages : List Package
  apt_packages : List Package
  snap_packages : List Package
  current_page : Page
  name_search : String
  source_search : String
  include_system : Bool

/-- State transition of AppState::update in main.rs (the returned Task is
always Task::none and is omitted; the Err arm only logs). -/
def update (s : AppState) (m : Message) : AppState :=
  match m with
  | .AppsLoaded (.ok lists) =>
    { s with
      flatpak_packages := lists.flatpak_packages
      apt_packages := lists.apt_packages
      snap_packages := lists.snap_packages }
  | .AppsLoaded (.error _) => s
  | .Navigate p => { s with current_page := p, name_search := "" }
  | .NameSearchChange t => { s with name_search := t }
  | .SourceSearchChange t => { s with source_search := t }
  | .IncludeSystemChange b => { s with include_system := b }

/-- Spec-side definition (for comparison with load_app_lists): the labeled
failure lines, one per failed source, in the order APT, Flatpak, Snap. -/
def specFailLines (aptRes flatpakRes snapRes : Except String (List Package)) : List String :=
  (match aptRes with | .error e => ["APT error: " ++ e] | .ok _ => []) ++
    (match flatpakRes with | .error e => ["Flatpak error: " ++ e] | .ok _ => []) ++
      (match snapRes with | .error e => ["Snap error: " ++ e] | .ok _ => [])

/-- Payload of a successful per-source result, empty list on failure. -/
def okListD : Except String (List Package) → List Package
  | .ok l => l
  | .error _ => []

/-- Helper: a string whose emptiness test is false is not the empty string. -/
theorem strIsEmpty_false_ne (t : String) (h : strIsEmpty t = false) : t ≠ "" := by
  intro he
  subst he
  exact absurd h (by decide)

/-- Helper: every segment produced by splitWhite is a non-empty string. -/
theorem mem_splitWhite_ne (s t : String) (ht : t ∈ splitWhite s) : t ≠ "" := by
  have h2 := (List.mem_filter.mp ht).2
  intro he
  subst he
  exact absurd h2 (by decide)

/-- Helper: the classification equation for one parsed dpkg-query line. -/
theorem parseAptLine_is_system (manual : List String) (line : String) (p : Package)
    (h : parseAptLine manual line = some p) :
    p.is_system = !(manual.contains p.name && !strStarts p.name "lib" && !aptMeta p.name) := by
  simp only [parseAptLine] at h
  split at h
  · cases h
  · injection h with h
    subst h
    rfl

/-- C1: every Package emitted by load_apt is classified by
is_system = NOT(manual AND NOT lib-prefixed AND NOT meta-pattern), where the
manual set is the one produced by load_manual_set. -/
theorem load_apt_classification (mOut dOut : String) (p : Package)
    (hp : p ∈ load_apt mOut dOut) :
    p.is_system =
      !((load_manual_set mOut).contains p.name && !strStarts p.name "lib" && !aptMeta p.name) := by
  obtain ⟨line, -, h⟩ := List.mem_filterMap.mp hp
  exact parseAptLine_is_system (load_manual_set mOut) line p h

/-- Package sample used to instantiate the APT classification theorem. -/
def aptHtop : Package :=
  { source := Source.Apt, name := "htop", version := "1.0", is_system := false }

/-- Witness for C1: the classification equation evaluated on a concrete
manually installed package. -/
theorem load_apt_classification_witness :
    aptHtop.is_system =
      !((load_manual_set "htop\n").contains aptHtop.name
        && !strStarts aptHtop.name "lib" && !aptMeta aptHtop.name) :=
  load_apt_classification "htop\n" "htop\t1.0\n" aptHtop (by decide)

/-- Helper: a Bool if-then-else with a true branch is a disjunction. -/
theorem ite_true_or (c d : Bool) : (if c = true then true else d) = (c || d) := by
  cases c <;> simp

/-- C3: for every line that parseSnapLine turns into a Package, is_system is
true exactly when the last whitespace column contains base, kernel or
gadget, or the name has one of the runtime prefixes. -/
theorem parseSnapLine_classification (line : String) (p : Package)
    (h : parseSnapLine line = some p) :
    p.is_system =
      (strContains ((splitWhite line).getLast?.getD "") "base" ||
        strContains ((splitWhite line).getLast?.getD "") "kernel" ||
        strContains ((splitWhite line).getLast?.getD "") "gadget" ||
        strStarts p.name "core" || strStarts p.name "gnome-" ||
        strStarts p.name "gtk-" || strStarts p.name "mesa-") := by
  simp only [parseSnapLine] at h
  split at h
  · cases h
  · injection h with h
    subst h
    show is_snap_runtime _ _ = _
    unfold is_snap_runtime
    rw [ite_true_or]
    simp [Bool.or_assoc]

/-- Package sample used to instantiate the Snap classification theorem. -/
def snapCore20 : Package :=
  { source := Source.Snap, name := "core20", version := "2024", is_system := true }

/-- Witness for C3: the Snap classification evaluated on a concrete base
snap line. -/
theorem parseSnapLine_classification_witness :
    snapCore20.is_system =
      (strContains ((splitWhite "core20 2024 1891 base").getLast?.getD "") "base" ||
        strContains ((splitWhite "core20 2024 1891 base").getLast?.getD "") "kernel" ||
        strContains ((splitWhite "core20 2024 1891 base").getLast?.getD "") "gadget" ||
        strStarts snapCore20.name "core" || strStarts snapCore20.name "gnome-" ||
        strStarts snapCore20.name "gtk-" || strStarts snapCore20.name "mesa-") :=
  parseSnapLine_classification "core20 2024 1891 base" snapCore20 (by decide)

/-- C4: every Package emitted by load_flatpak has is_system = false, for any
input text. -/
theorem load_flatpak_not_system (out : String) (p : Package)
    (hp : p ∈ load_flatpak out) : p.is_system = false := by
  obtain ⟨line, -, h⟩ := List.mem_filterMap.mp hp
  simp only [parseFlatpakLine] at h
  split at h
  · cases h
  · split at h
    · cases h
    · injection h with h
      subst h
      rfl

/-- Package sample used to instantiate the Flatpak theorem. -/
def gimpPkg : Package :=
  { source := Source.Flatpak, name := "org.gimp.GIMP", version := "2.10.38", is_system := false }

/-- Witness for C4: the Flatpak non-system property on a concrete line. -/
theorem load_flatpak_not_system_witness : gimpPkg.is_system = false :=
  load_flatpak_not_system "org.gimp.GIMP 2.10.38 stable flathub\n" gimpPkg (by decide)

/-- Counterexample for C5: one failing source and two succeeding ones, one
of them with a parsed package; the aggregate is an error value carrying only
the combined message, so the successfully parsed lists are not delivered. -/
theorem load_app_lists_discard_cex :
    load_app_lists (Except.error "boom") (Except.ok [gimpPkg]) (Except.ok []) =
      Except.error "APT error: boom" := by
  rfl

/-- C5 amended: load_app_lists returns an Ok payload exactly when all three
sources succeed; on any failure the successfully parsed lists are discarded
and only the combined error string is returned. -/
theorem load_app_lists_ok_iff (ra rf rs : Except String (List Package)) :
    (∃ lists, load_app_lists ra rf rs = Except.ok lists) ↔
      (∃ a, ra = Except.ok a) ∧ (∃ f, rf = Except.ok f) ∧ (∃ s, rs = Except.ok s) := by
  cases ra <;> cases rf <;> cases rs <;> simp [load_app_lists]

/-- C6: load_app_lists is Ok with the three payload lists exactly when no
source failed, and otherwise is the newline-join of the labeled failure
lines, which contain exactly one entry per failed source in the order APT,
Flatpak, Snap. -/
theorem load_app_lists_error_lines (ra rf rs : Except String (List Package)) :
    load_app_lists ra rf rs =
      (if specFailLines ra rf rs = [] then
        Except.ok
          { flatpak_packages := okListD rf
            apt_packages := okListD ra
            snap_packages := okListD rs }
      else Except.error (joinNl (specFailLines ra rf rs))) ∧
    (specFailLines ra rf rs).length =
      (match ra with | .ok _ => 0 | .error _ => 1) +
        (match rf with | .ok _ => 0 | .error _ => 1) +
          (match rs with | .ok _ => 0 | .error _ => 1) := by
  cases ra <;> cases rf <;> cases rs <;>
    simp [load_app_lists, specFailLines, okListD, joinNl]

/-- Helper: a parsed dpkg-query line always carries a non-empty name. -/
theorem parseAptLine_name_ne (manual : List String) (line : String) (p : Package)
    (h : parseAptLine manual line = some p) : p.name ≠ "" := by
  simp only [parseAptLine] at h
  split at h
  · cases h
  · rename_i hcond
    injection h with h
    subst h
    exact strIsEmpty_false_ne _ (by simpa using hcond)

/-- Helper: a parsed flatpak line always carries a non-empty name. -/
theorem parseFlatpakLine_name_ne (line : String) (p : Package)
    (h : parseFlatpakLine line = some p) : p.name ≠ "" := by
  simp only [parseFlatpakLine] at h
  split at h
  · cases h
  · split at h
    · cases h
    · rename_i hcond
      injection h with h
      subst h
      exact strIsEmpty_false_ne _ (by simpa using hcond)

/-- Helper: a parsed snap line always carries a non-empty name. -/
theorem parseSnapLine_name_ne (line : String) (p : Package)
    (h : parseSnapLine line = some p) : p.name ≠ "" := by
  simp only [parseSnapLine] at h
  split at h
  · cases h
  · rename_i hcond
    injection h with h
    subst h
    have hlt : 0 < (splitWhite line).length := by omega
    have hg : (splitWhite line).get? 0 = some ((splitWhite line).get ⟨0, hlt⟩) :=
      List.get?_eq_get hlt
    show ((splitWhite line).get? 0).getD "" ≠ ""
    rw [hg]
    exact mem_splitWhite_ne line _ (List.get_mem _ _ _)

/-- C7: every Package emitted by any of the three parsers has a non-empty
name, and a dpkg-query line whose name field trims to empty produces no
record at all. -/
theorem packages_have_nonempty_names (mOut dOut fOut sOut : String) :
    (∀ p ∈ load_apt mOut dOut, p.name ≠ "") ∧
    (∀ p ∈ load_flatpak fOut, p.name ≠ "") ∧
    (∀ p ∈ load_snap sOut, p.name ≠ "") ∧
    (∀ line, strIsEmpty (strTrim (((strSplitCh '\t' line).get? 0).getD "")) = true →
      parseAptLine (load_manual_set mOut) line = none) := by
  refine ⟨?_, ?_, ?_, ?_⟩
  · intro p hp
    obtain ⟨line, -, h⟩ := List.mem_filterMap.mp hp
    exact parseAptLine_name_ne _ line p h
  · intro p hp
    obtain ⟨line, -, h⟩ := List.mem_filterMap.mp hp
    exact parseFlatpakLine_name_ne line p h
  · intro p hp
    obtain ⟨il, -, h⟩ := List.mem_filterMap.mp hp
    split at h
    · cases h
    · exact parseSnapLine_name_ne il.2 p h
  · intro line hline
    simp only [parseAptLine]
    rw [if_pos hline]

/-- Witness for C7: the non-empty-name invariant and the dropped-line rule
evaluated on concrete parser inputs. -/
theorem packages_have_nonempty_names_witness :
    aptHtop.name ≠ "" ∧
      parseAptLine (load_manual_set "htop\n") "\t9.9" = none := by
  constructor
  · exact (packages_have_nonempty_names "htop\n" "htop\t1.0\n" "" "").1 aptHtop (by decide)
  · exact (packages_have_nonempty_names "htop\n" "htop\t1.0\n" "" "").2.2.2 "\t9.9" (by decide)

/-- Helper: filterMap over an enumeration started at a positive index never
meets index zero. -/
theorem filterMap_enumFrom_aux (f : String → Option Package) (t : List String) :
    ∀ n, n ≠ 0 →
      (List.enumFrom n t).filterMap (fun il => if il.1 == 0 then none else f il.2) =
        t.filterMap f := by
  induction t with
  | nil => intro n _; rfl
  | cons b t ih =>
    intro n hn
    have ih2 := ih (n + 1) (Nat.succ_ne_zero n)
    simp only [List.enumFrom, List.filterMap_cons, beq_iff_eq] at ih2 ⊢
    rw [if_neg hn]
    cases hfb : f b <;> simp [hfb, ih2]

/-- C8: load_snap drops exactly the header line and otherwise filterMaps the
per-line parser; a line with fewer than two whitespace columns yields no
record, and any other line yields exactly one record whose name and version
are the first two columns. -/
theorem load_snap_structure (out line : String) :
    load_snap out = ((rustLines out).drop 1).filterMap parseSnapLine ∧
    ((splitWhite line).length < 2 → parseSnapLine line = none) ∧
    (2 ≤ (splitWhite line).length →
      ∃ p, parseSnapLine line = some p ∧
        p.name = ((splitWhite line).get? 0).getD "" ∧
        p.version = ((splitWhite line).get? 1).getD "") := by
  refine ⟨?_, ?_, ?_⟩
  · unfold load_snap
    cases h : rustLines out with
    | nil => rfl
    | cons a t =>
      show ((0, a) :: List.enumFrom 1 t).filterMap _ = t.filterMap parseSnapLine
      rw [List.filterMap_cons]
      simp only [reduceIte]
      exact filterMap_enumFrom_aux parseSnapLine t 1 (by omega)
  · intro hlt
    simp only [parseSnapLine]
    rw [if_pos hlt]
  · intro hge
    have hlt : ¬ (splitWhite line).length < 2 := by omega
    refine
      ⟨{ source := Source.Snap
         name := ((splitWhite line).get? 0).getD ""
         version := ((splitWhite line).get? 1).getD ""
         is_system := is_snap_runtime (((splitWhite line).get? 0).getD "")
           ((splitWhite line).getLast?.getD "") }, ?_, rfl, rfl⟩
    simp only [parseSnapLine]
    rw [if_neg hlt]

/-- Witness for C8: the per-line behavior of the snap parser evaluated on a
concrete short line and a concrete full line. -/
theorem load_snap_structure_witness :
    parseSnapLine "lonely" = none ∧
      ∃ p, parseSnapLine "core20 2024 1891 base" = some p ∧
        p.name = ((splitWhite "core20 2024 1891 base").get? 0).getD "" ∧
        p.version = ((splitWhite "core20 2024 1891 base").get? 1).getD "" := by
  constructor
  · exact (load_snap_structure "" "lonely").2.1 (by decide)
  · exact (load_snap_structure "" "core20 2024 1891 base").2.2 (by decide)

/-- C10: processing Navigate p sets the current page to p, clears the name
filter, and leaves the three package lists, the source filter and the
include-system flag unchanged. -/
theorem update_navigate (s : AppState) (p : Page) :
    (update s (Message.Navigate p)).current_page = p ∧
    (update s (Message.Navigate p)).name_search = "" ∧
    (update s (Message.Navigate p)).flatpak_packages = s.flatpak_packages ∧
    (update s (Message.Navigate p)).apt_packages = s.apt_packages ∧
    (update s (Message.Navigate p)).snap_packages = s.snap_packages ∧
    (update s (Message.Navigate p)).source_search = s.source_search ∧
    (update s (Message.Navigate p)).include_system = s.include_system := by
  simp [update]

/-- C9: filtering a package list with a fixed (name, source, include-system)
triple is idempotent. -/
theorem filter_package_idempotent (l : List Package) (n s : String) (b : Bool) :
    (l.filter (fun p => filter_package p n s b)).filter (fun p => filter_package p n s b) =
      l.filter (fun p => filter_package p n s b) := by
  induction l with
  | nil => rfl
  | cons a t ih =>
    by_cases h : filter_package a n s b = true
    · simp [List.filter_cons, h, ih]
    · simp [List.filter_cons, h, ih]

end PkgMgr
